import Mathlib

/-!
# Verification of the FreeRTOS+TCP (multi-interface V2.3.1) routing layer

Shallow embedding of `source/FreeRTOS_Routing.c`.

Modelling conventions:

* IPv4 addresses, netmasks, gateways and DNS addresses are 32-bit words.
  In the C code they are stored in network byte order and the only
  byte-order-sensitive operations are `FreeRTOS_ntohl( x ) & 0xff` (the
  limited-broadcast test) and `FreeRTOS_inet_addr_quick`.  We model every
  address by its host-order value (the value `FreeRTOS_ntohl` would return
  for the stored word).  All bitwise operations (`&`, `|`, `^`, `~`)
  commute with the byte permutation performed by `ntohl`, and the two
  all-ones tests (`x == ~0U`, `ntohl(x) & 0xff`) translate to
  `x = 0xFFFFFFFF` and `x &&& 0xff` in this representation, so every
  comparison in the source is preserved exactly.
* The intrusive singly-linked lists rooted at `pxNetworkEndPoints` /
  `pxNetworkInterfaces` are modelled as Lean lists: the list is the chain
  of nodes reachable from the head pointer through `pxNext`.  Pointer
  identity of a node is modelled by a numeric id (`eid` / `iid`).
* `NULL` results become `Option.none`; the compatibility shim, which can
  dereference a `NULL` head pointer, is embedded in `Except Unit` with
  `Except.error ()` marking the null dereference.
* Statistics counters (`ipconfigHAS_ROUTING_STATISTICS`), `FreeRTOS_printf`
  diagnostics and the `ulWhere` debug argument have no effect on the
  match results and are omitted.
* Unless noted otherwise the general build is modelled as compiled with
  `ipconfigUSE_IPv6 != 0` and `ipconfigUSE_LLMNR == 0` (the default).
-/

/-- `IPV4Parameters_t`: the `ipv4_settings` / `ipv4_defaults` block of an
end-point.  Only index 0 of `ulDNSServerAddresses` is written by
`FreeRTOS_FillEndPoint`, so the array is modelled by that entry. -/
structure IPV4Parameters where
  ulIPAddress : Nat
  ulNetMask : Nat
  ulGatewayAddress : Nat
  ulDNSServerAddress : Nat
  ulBroadcastAddress : Nat
deriving Repr, DecidableEq

/-- `IPV6Parameters_t`: the IPv6 address block, modelled as a 128-bit word
plus a prefix length.  Only the fields read by the routing code appear. -/
structure IPV6Parameters where
  xIPAddress : Nat
  uxPrefixLength : Nat
deriving Repr, DecidableEq

/-- `NetworkEndPoint_t`.  `eid` models the node's identity (its address in
the C heap); `pxNetworkInterface` holds the id of the owning interface;
`xMACAddress` is the list of the 6 MAC bytes. -/
structure NetworkEndPoint where
  eid : Nat
  bIPv6 : Bool
  ipv4_settings : IPV4Parameters
  ipv4_defaults : IPV4Parameters
  ipv6_settings : IPV6Parameters
  xMACAddress : List Nat
  pxNetworkInterface : Nat
deriving Repr, DecidableEq

/-- `NetworkInterface_t`: identity plus the cached first end-point
(`pxEndPoint`), modelled as the id of that end-point.  The `pxNext` field
is represented by the node's position in the chain list. -/
structure NetworkInterface where
  iid : Nat
  pxEndPoint : Option Nat
deriving Repr, DecidableEq

/-- The all-ones 32-bit word; `~x` on `uint32_t` is `mask32 ^^^ x`. -/
def mask32 : Nat := 0xFFFFFFFF

/-- The interface filter used by the scans: C tests
`( pxInterface == NULL ) || ( pxEndPoint->pxNetworkInterface == pxInterface )`. -/
def ifaceMatch (q : Option Nat) (e : NetworkEndPoint) : Bool :=
  match q with
  | none => true
  | some i => e.pxNetworkInterface == i

/-- `FreeRTOS_FillEndPoint` (FreeRTOS_Routing.c lines 76-111), acting on the
storage block for one end-point.  The record is zero-initialised
(`memset`), the IPv4 settings are written, copied to the defaults, and the
default address is overwritten with the supplied static address while the
current address stays 0 ("will be set later on").  The byte-quadruple
arguments of the C function are modelled by their packed 32-bit values
(`FreeRTOS_inet_addr_quick` is a bijective packing and is not part of this
file's sources).  Registration of the record is modelled separately. -/
def FreeRTOS_FillEndPoint (eid iface : Nat) (ulIPAddress ulNetMask
    ulGatewayAddress ulDNSServerAddress : Nat) (ucMACAddress : List Nat) :
    NetworkEndPoint :=
  let settings : IPV4Parameters :=
    { ulIPAddress := 0
      ulNetMask := ulNetMask
      ulGatewayAddress := ulGatewayAddress
      ulDNSServerAddress := ulDNSServerAddress
      ulBroadcastAddress := ulIPAddress ||| (mask32 ^^^ ulNetMask) }
  { eid := eid
    bIPv6 := false
    ipv4_settings := settings
    ipv4_defaults := { settings with ulIPAddress := ulIPAddress }
    ipv6_settings := { xIPAddress := 0, uxPrefixLength := 0 }
    xMACAddress := ucMACAddress
    pxNetworkInterface := iface }

/-- C5 counterexample input: 192.168.1.5 / 255.255.255.0. -/
def c5Endpoint : NetworkEndPoint :=
  FreeRTOS_FillEndPoint 1 0 0xC0A80105 0xFFFFFF00 0xC0A80101 0x08080808
    [0, 1, 2, 3, 4, 5]

/-- C5 counterexample: immediately after `FreeRTOS_FillEndPoint` with
address 192.168.1.5 and netmask 255.255.255.0, the *current* settings have
`ulBroadcastAddress = 192.168.1.255` but
`ulIPAddress | ~ulNetMask = 0 | 0.0.0.255 = 0.0.0.255`, so the claimed
invariant `broadcast == address | ~netmask` fails for the current
settings (it does hold for the defaults). -/
theorem C5_counterexample :
    c5Endpoint.ipv4_settings.ulBroadcastAddress ≠
      c5Endpoint.ipv4_settings.ulIPAddress |||
        (mask32 ^^^ c5Endpoint.ipv4_settings.ulNetMask) := by
  decide

/-- C5 (amended): for every filled IPv4 end-point, the *default* settings
satisfy `broadcast == address | ~netmask`; the *current* settings carry the
same broadcast address, which equals the supplied (default) static address
`| ~netmask`, while the current address field itself is left zero, so the
claimed equation holds for the current settings only in the form that uses
the default address. -/
theorem C5_fill_broadcast_invariant (eid iface addr mask gw dns : Nat)
    (mac : List Nat) :
    (FreeRTOS_FillEndPoint eid iface addr mask gw dns mac).ipv4_defaults.ulBroadcastAddress =
      (FreeRTOS_FillEndPoint eid iface addr mask gw dns mac).ipv4_defaults.ulIPAddress |||
        (mask32 ^^^ (FreeRTOS_FillEndPoint eid iface addr mask gw dns mac).ipv4_defaults.ulNetMask) ∧
    (FreeRTOS_FillEndPoint eid iface addr mask gw dns mac).ipv4_settings.ulBroadcastAddress =
      (FreeRTOS_FillEndPoint eid iface addr mask gw dns mac).ipv4_defaults.ulIPAddress |||
        (mask32 ^^^ (FreeRTOS_FillEndPoint eid iface addr mask gw dns mac).ipv4_settings.ulNetMask) ∧
    (FreeRTOS_FillEndPoint eid iface addr mask gw dns mac).ipv4_settings.ulIPAddress = 0 := by
  refine ⟨rfl, rfl, rfl⟩

/-- C6: immediately after `FreeRTOS_FillEndPoint`, the default settings
equal the current settings in every field except the address: netmask,
gateway, DNS and broadcast agree; the current address is zero; the default
address holds the supplied static address. -/
theorem C6_fill_defaults_equal_settings (eid iface addr mask gw dns : Nat)
    (mac : List Nat) :
    ((FreeRTOS_FillEndPoint eid iface addr mask gw dns mac).ipv4_defaults.ulNetMask =
        (FreeRTOS_FillEndPoint eid iface addr mask gw dns mac).ipv4_settings.ulNetMask ∧
      (FreeRTOS_FillEndPoint eid iface addr mask gw dns mac).ipv4_defaults.ulGatewayAddress =
        (FreeRTOS_FillEndPoint eid iface addr mask gw dns mac).ipv4_settings.ulGatewayAddress ∧
      (FreeRTOS_FillEndPoint eid iface addr mask gw dns mac).ipv4_defaults.ulDNSServerAddress =
        (FreeRTOS_FillEndPoint eid iface addr mask gw dns mac).ipv4_settings.ulDNSServerAddress ∧
      (FreeRTOS_FillEndPoint eid iface addr mask gw dns mac).ipv4_defaults.ulBroadcastAddress =
        (FreeRTOS_FillEndPoint eid iface addr mask gw dns mac).ipv4_settings.ulBroadcastAddress) ∧
    (FreeRTOS_FillEndPoint eid iface addr mask gw dns mac).ipv4_settings.ulIPAddress = 0 ∧
    (FreeRTOS_FillEndPoint eid iface addr mask gw dns mac).ipv4_defaults.ulIPAddress = addr := by
  exact ⟨⟨rfl, rfl, rfl, rfl⟩, rfl, rfl⟩

/-- `xIsIPv4Multicast` (declared in FreeRTOS_IP.h, defined outside the
given sources).  Modelled from the spec: "destination is an IPv4 multicast
address" — the class-D range 224.0.0.0/4, i.e. host-order values in
`[0xE0000000, 0xF0000000)`. -/
def xIsIPv4Multicast (ulIPAddress : Nat) : Bool :=
  0xE0000000 ≤ ulIPAddress && ulIPAddress < 0xF0000000

/-- `xCompareIPv6_Address` (defined outside the given sources).  Modelled
from the spec: "match when the address, truncated to the endpoint's prefix
length, equals the endpoint's configured prefix (longest-prefix-style
compare)".  Returns `true` when the first `uxPrefixLength` bits of the two
128-bit addresses coincide (the C function returns 0 in that case). -/
def prefixEqualIPv6 (a b : Nat) (uxPrefixLength : Nat) : Bool :=
  (a >>> (128 - min uxPrefixLength 128)) == (b >>> (128 - min uxPrefixLength 128))

/-- `FreeRTOS_FindEndPointOnIP_IPv4` (general build, lines 365-397): first
end-point in the global list that is IPv4 and whose current address equals
`ulIPAddress`; `ulIPAddress = 0` is a wildcard matching the first IPv4
end-point. -/
def FreeRTOS_FindEndPointOnIP_IPv4 (eps : List NetworkEndPoint)
    (ulIPAddress : Nat) : Option NetworkEndPoint :=
  match eps with
  | [] => none
  | e :: rest =>
    if e.bIPv6 = false ∧
        (ulIPAddress = 0 ∨ e.ipv4_settings.ulIPAddress = ulIPAddress) then
      some e
    else
      FreeRTOS_FindEndPointOnIP_IPv4 rest ulIPAddress

/-- `FreeRTOS_FindEndPointOnMAC` (general build, lines 439-470): first
end-point passing the optional interface filter whose 6 MAC bytes equal
the queried address (`memcmp == 0`). -/
def FreeRTOS_FindEndPointOnMAC (eps : List NetworkEndPoint)
    (pxMACAddress : List Nat) (q : Option Nat) : Option NetworkEndPoint :=
  match eps with
  | [] => none
  | e :: rest =>
    if ifaceMatch q e ∧ e.xMACAddress = pxMACAddress then
      some e
    else
      FreeRTOS_FindEndPointOnMAC rest pxMACAddress q

/-- `FreeRTOS_InterfaceEndPointOnNetMask` (general build, lines 497-547):
first end-point passing the interface filter that is IPv4 and satisfies
`(addr & netmask) == (endpointAddr & netmask)`. -/
def FreeRTOS_InterfaceEndPointOnNetMask (q : Option Nat)
    (ulIPAddress : Nat) (eps : List NetworkEndPoint) :
    Option NetworkEndPoint :=
  match eps with
  | [] => none
  | e :: rest =>
    if ifaceMatch q e ∧ e.bIPv6 = false ∧
        ulIPAddress &&& e.ipv4_settings.ulNetMask =
          e.ipv4_settings.ulIPAddress &&& e.ipv4_settings.ulNetMask then
      some e
    else
      FreeRTOS_InterfaceEndPointOnNetMask q ulIPAddress rest

/-- `FreeRTOS_FindEndPointOnNetMask` (general build, lines 480-485):
delegates to `FreeRTOS_InterfaceEndPointOnNetMask` with no interface
filter. -/
def FreeRTOS_FindEndPointOnNetMask (ulIPAddress : Nat)
    (eps : List NetworkEndPoint) : Option NetworkEndPoint :=
  FreeRTOS_InterfaceEndPointOnNetMask none ulIPAddress eps

/-- `FreeRTOS_FirstEndPoint` (general build, lines 304-321): first
end-point passing the optional interface filter. -/
def FreeRTOS_FirstEndPoint (q : Option Nat) (eps : List NetworkEndPoint) :
    Option NetworkEndPoint :=
  match eps with
  | [] => none
  | e :: rest =>
    if ifaceMatch q e then some e else FreeRTOS_FirstEndPoint q rest

/-- `FreeRTOS_NextEndPoint` (general build, lines 334-355): starting from
the node after the cursor, the first end-point passing the interface
filter; `NULL` cursor gives `NULL`.  The cursor is given by its node id
(it is a pointer into the chain in C). -/
def FreeRTOS_NextEndPoint (q : Option Nat) (cursor : Option Nat)
    (eps : List NetworkEndPoint) : Option NetworkEndPoint :=
  match cursor with
  | none => none
  | some cid =>
    match eps.dropWhile (fun e => e.eid != cid) with
    | [] => none
    | _ :: rest => FreeRTOS_FirstEndPoint q rest

/-- `prvFindFirstAddress_IPv6` (lines 619-634): first end-point whose
`bits.bIPv6` flag is set. -/
def prvFindFirstAddress_IPv6 (eps : List NetworkEndPoint) :
    Option NetworkEndPoint :=
  match eps with
  | [] => none
  | e :: rest => if e.bIPv6 then some e else prvFindFirstAddress_IPv6 rest

/-- `FreeRTOS_FindEndPointOnNetMask_IPv6` (lines 647-653): the queried
address is discarded (`( void ) pxIPv6Address`) and the first IPv6
end-point is returned ("_HT_ to be worked out later"). -/
def FreeRTOS_FindEndPointOnNetMask_IPv6 (eps : List NetworkEndPoint)
    (_pxIPv6Address : Nat) : Option NetworkEndPoint :=
  prvFindFirstAddress_IPv6 eps

/-- `FreeRTOS_FindGateWay` compiled with `ipconfigUSE_IPv6 == 0`
(lines 845-857, `#if` branch): `xIPType` is discarded and the first
end-point with a non-zero IPv4 gateway address is returned.  This is the
compilation that can coexist with the compatibility shim, which supports
IPv4 only. -/
def FreeRTOS_FindGateWay_v4 (xIPType : Nat) (eps : List NetworkEndPoint) :
    Option NetworkEndPoint :=
  match eps with
  | [] => none
  | e :: rest =>
    if e.ipv4_settings.ulGatewayAddress ≠ 0 then some e
    else FreeRTOS_FindGateWay_v4 xIPType rest

/-- `FreeRTOS_NextNetworkInterface` (general build, lines 200-214): the
node after the cursor in the interface chain, `NULL` on a `NULL` cursor. -/
def FreeRTOS_NextNetworkInterface (cursor : Option Nat)
    (chain : List NetworkInterface) : Option NetworkInterface :=
  match cursor with
  | none => none
  | some cid =>
    match chain.dropWhile (fun j => j.iid != cid) with
    | [] => none
    | _ :: rest => rest.head?

/-- The fields of an incoming Ethernet frame that
`FreeRTOS_MatchingEndpoint` reads: the frame type selects the branch of
the `switch`; ARP frames contribute `ulTargetProtocolAddress`, IPv4 frames
the source and destination IP addresses, IPv6 frames the destination
address.  The IP protocol byte is read only to pick a logging label and is
omitted.  `other` covers every unsupported frame type (`default`). -/
inductive EthFrame where
  | arp (ulTargetProtocolAddress : Nat)
  | ipv4 (ulSourceIPAddress ulDestinationIPAddress : Nat)
  | ipv6 (xDestinationAddress : Nat)
  | other (usFrameType : Nat)
deriving Repr, DecidableEq

/-- The body of the IPv4 `for` loop of `FreeRTOS_MatchingEndpoint`
(lines 779-817): iterate the end-points passing the interface filter
(`FreeRTOS_FirstEndPoint` / `FreeRTOS_NextEndPoint` semantics), skip IPv6
end-points (`continue`), and stop at the first end-point accepted by,
in order: exact destination match, the broadcast rule against
`ulMatchAddress`, or an IPv4-multicast destination. -/
def prvMatchLoopIPv4 (q : Option Nat) (ulIPTargetAddress ulMatchAddress : Nat)
    (xIPBroadcast : Bool) (eps : List NetworkEndPoint) :
    Option NetworkEndPoint :=
  match eps with
  | [] => none
  | e :: rest =>
    if ifaceMatch q e then
      if e.bIPv6 then
        prvMatchLoopIPv4 q ulIPTargetAddress ulMatchAddress xIPBroadcast rest
      else if e.ipv4_settings.ulIPAddress = ulIPTargetAddress then
        some e
      else if xIPBroadcast ∧
          (e.ipv4_settings.ulIPAddress ^^^ ulMatchAddress) &&&
            e.ipv4_settings.ulNetMask = 0 then
        some e
      else if xIsIPv4Multicast ulIPTargetAddress then
        some e
      else
        prvMatchLoopIPv4 q ulIPTargetAddress ulMatchAddress xIPBroadcast rest
    else
      prvMatchLoopIPv4 q ulIPTargetAddress ulMatchAddress xIPBroadcast rest

/-- The IPv6 branch of `FreeRTOS_MatchingEndpoint` (lines 702-736,
`ipconfigUSE_LLMNR == 0`): first IPv6 end-point whose owning interface is
exactly the receiving interface (no `NULL` wildcard here) and whose
address matches the destination up to the end-point's prefix length. -/
def prvMatchIPv6Frame (q : Option Nat) (xDestinationAddress : Nat)
    (eps : List NetworkEndPoint) : Option NetworkEndPoint :=
  match eps with
  | [] => none
  | e :: rest =>
    if e.bIPv6 ∧ q = some e.pxNetworkInterface ∧
        prefixEqualIPv6 e.ipv6_settings.xIPAddress xDestinationAddress
          e.ipv6_settings.uxPrefixLength then
      some e
    else
      prvMatchIPv6Frame q xDestinationAddress rest

/-- `FreeRTOS_MatchingEndpoint` (general build, lines 665-835).  For IPv4
frames: `xIPBroadcast` is set when the low-order byte of the destination
is all-ones (`( FreeRTOS_ntohl( dest ) & 0xff ) == 0xff`); the broadcast
rule compares against the *source* address exactly when the destination is
`255.255.255.255` (`dest == ~0U`) and against the destination otherwise;
after the loop, a broadcast frame that matched nothing falls back to the
interface's first end-point. -/
def FreeRTOS_MatchingEndpoint (q : Option Nat)
    (eps : List NetworkEndPoint) (frame : EthFrame) :
    Option NetworkEndPoint :=
  match frame with
  | .arp target => FreeRTOS_FindEndPointOnIP_IPv4 eps target
  | .ipv4 src dest =>
    let xIPBroadcast : Bool := dest &&& 0xff == 0xff
    let ulMatchAddress : Nat := if dest = mask32 then src else dest
    match prvMatchLoopIPv4 q dest ulMatchAddress xIPBroadcast eps with
    | some e => some e
    | none => if xIPBroadcast then FreeRTOS_FirstEndPoint q eps else none
  | .ipv6 dest => prvMatchIPv6Frame q dest eps
  | .other _ => none

/-- `FreeRTOS_AddNetworkInterface` (general build, lines 134-180) acting
on the chain reachable from `pxNetworkInterfaces`.  The C code first sets
`pxInterface->pxNext = NULL` and `pxInterface->pxEndPoint = NULL`; when
the interface is already the `k`-th node of the chain, clearing its
`pxNext` truncates the chain right after it, and the subsequent scan then
finds the node and stops without appending.  When it is not in the chain,
the scan reaches the last node and appends the (cleared) interface. -/
def FreeRTOS_AddNetworkInterface (chain : List NetworkInterface)
    (pxInterface : NetworkInterface) : List NetworkInterface :=
  match chain.findIdx? (fun j => j.iid == pxInterface.iid) with
  | some k =>
    (chain.take (k + 1)).map
      (fun j => if j.iid = pxInterface.iid then { j with pxEndPoint := none } else j)
  | none => chain ++ [{ pxInterface with pxEndPoint := none }]

lemma prvFindFirstAddress_IPv6_eq_find? (eps : List NetworkEndPoint) :
    prvFindFirstAddress_IPv6 eps = eps.find? (fun e => e.bIPv6) := by
  induction eps with
  | nil => rfl
  | cons e rest ih =>
    cases h : e.bIPv6 <;> simp [prvFindFirstAddress_IPv6, List.find?_cons, h, ih]

/-- C9: the IPv6 outbound subnet lookup ignores the queried address and
returns the first IPv6 end-point in registration order; it returns "no
match" exactly when no IPv6 end-point is registered. -/
theorem C9_ipv6_netmask_lookup_placeholder (eps : List NetworkEndPoint)
    (a b : Nat) :
    FreeRTOS_FindEndPointOnNetMask_IPv6 eps a =
      FreeRTOS_FindEndPointOnNetMask_IPv6 eps b ∧
    FreeRTOS_FindEndPointOnNetMask_IPv6 eps a =
      eps.find? (fun e => e.bIPv6) ∧
    (FreeRTOS_FindEndPointOnNetMask_IPv6 eps a = none ↔
      ∀ e ∈ eps, e.bIPv6 = false) := by
  refine ⟨rfl, prvFindFirstAddress_IPv6_eq_find? eps, ?_⟩
  rw [show FreeRTOS_FindEndPointOnNetMask_IPv6 eps a =
    eps.find? (fun e => e.bIPv6) from prvFindFirstAddress_IPv6_eq_find? eps]
  simp [List.find?_eq_none]

/-- C7: `FreeRTOS_InterfaceEndPointOnNetMask` returns an IPv4 end-point of
the filtered set satisfying `(addr & netmask) == (epAddr & netmask)`, and
returns "no match" iff no IPv4 end-point in the filtered set satisfies
that equation. -/
theorem C7_interface_endpoint_on_netmask (q : Option Nat) (addr : Nat)
    (eps : List NetworkEndPoint) :
    (∀ r, FreeRTOS_InterfaceEndPointOnNetMask q addr eps = some r →
      r ∈ eps ∧ ifaceMatch q r = true ∧ r.bIPv6 = false ∧
        addr &&& r.ipv4_settings.ulNetMask =
          r.ipv4_settings.ulIPAddress &&& r.ipv4_settings.ulNetMask) ∧
    (FreeRTOS_InterfaceEndPointOnNetMask q addr eps = none ↔
      ∀ e ∈ eps, ifaceMatch q e = true → e.bIPv6 = false →
        addr &&& e.ipv4_settings.ulNetMask ≠
          e.ipv4_settings.ulIPAddress &&& e.ipv4_settings.ulNetMask) := by
  induction eps with
  | nil =>
    refine ⟨?_, ?_⟩
    · intro r h
      simp [FreeRTOS_InterfaceEndPointOnNetMask] at h
    · simp [FreeRTOS_InterfaceEndPointOnNetMask]
  | cons e rest ih =>
    by_cases hc : ifaceMatch q e = true ∧ e.bIPv6 = false ∧
        addr &&& e.ipv4_settings.ulNetMask =
          e.ipv4_settings.ulIPAddress &&& e.ipv4_settings.ulNetMask
    · refine ⟨?_, ?_⟩
      · intro r h
        rw [FreeRTOS_InterfaceEndPointOnNetMask, if_pos hc] at h
        cases h
        exact ⟨List.mem_cons_self e rest, hc.1, hc.2.1, hc.2.2⟩
      · rw [FreeRTOS_InterfaceEndPointOnNetMask, if_pos hc]
        simp only [false_iff, reduceCtorEq]
        intro hall
        exact hall e (List.mem_cons_self e rest) hc.1 hc.2.1 hc.2.2
    · refine ⟨?_, ?_⟩
      · intro r h
        rw [FreeRTOS_InterfaceEndPointOnNetMask, if_neg hc] at h
        obtain ⟨hmem, rest'⟩ := ih.1 r h
        exact ⟨List.mem_cons_of_mem e hmem, rest'⟩
      · rw [FreeRTOS_InterfaceEndPointOnNetMask, if_neg hc]
        rw [ih.2]
        constructor
        · intro hall
          intro x hx
          rcases List.mem_cons.mp hx with hx | hx
          · subst hx
            intro h1 h2 h3
            exact hc ⟨h1, h2, h3⟩
          · exact hall x hx
        · intro hall x hx
          exact hall x (List.mem_cons_of_mem e hx)

lemma prvMatchLoopIPv4_no_broadcast (q : Option Nat)
    (dest mAddr : Nat) (eps : List NetworkEndPoint)
    (hm : xIsIPv4Multicast dest = false) :
    prvMatchLoopIPv4 q dest mAddr false eps =
      eps.find? (fun e => ifaceMatch q e && !e.bIPv6 &&
        (e.ipv4_settings.ulIPAddress == dest)) := by
  induction eps with
  | nil => rfl
  | cons e rest ih =>
    by_cases hf : ifaceMatch q e = true
    · by_cases h6 : e.bIPv6 = true
      · simp [prvMatchLoopIPv4, List.find?_cons, hf, h6, ih]
      · by_cases hip : e.ipv4_settings.ulIPAddress = dest
        · simp [prvMatchLoopIPv4, List.find?_cons, hf, h6, hip]
        · simp [prvMatchLoopIPv4, List.find?_cons, hf, h6, hip, hm, ih]
    · simp [prvMatchLoopIPv4, List.find?_cons, hf, ih]

lemma matchingEndpoint_unicast (q : Option Nat)
    (eps : List NetworkEndPoint) (src dest : Nat)
    (hnb : dest &&& 0xff ≠ 0xff) (hnm : xIsIPv4Multicast dest = false) :
    FreeRTOS_MatchingEndpoint q eps (.ipv4 src dest) =
      eps.find? (fun e => ifaceMatch q e && !e.bIPv6 &&
        (e.ipv4_settings.ulIPAddress == dest)) := by
  have hb : (dest &&& 0xff == 0xff) = false := by
    simpa using hnb
  rw [FreeRTOS_MatchingEndpoint]
  simp only [hb]
  rw [prvMatchLoopIPv4_no_broadcast q dest _ eps hnm]
  cases hfind : eps.find? (fun e => ifaceMatch q e && !e.bIPv6 &&
      (e.ipv4_settings.ulIPAddress == dest)) <;> simp [hfind]

/-- C8: on an IPv4 frame whose destination is unicast (its low-order byte
is not all-ones, and it is not a class-D multicast address) and equals the
current address of some IPv4 end-point on the receiving interface, the
matcher returns an end-point with exactly that address on that interface;
when that end-point is the only one carrying the address, the matcher
returns it, whatever other end-points are present. -/
theorem C8_unicast_exact_match (q : Option Nat)
    (eps : List NetworkEndPoint) (src dest : Nat)
    (hnb : dest &&& 0xff ≠ 0xff) (hnm : xIsIPv4Multicast dest = false)
    (hex : ∃ e ∈ eps, ifaceMatch q e = true ∧ e.bIPv6 = false ∧
      e.ipv4_settings.ulIPAddress = dest) :
    (∃ r, FreeRTOS_MatchingEndpoint q eps (.ipv4 src dest) = some r ∧
      r ∈ eps ∧ ifaceMatch q r = true ∧ r.bIPv6 = false ∧
      r.ipv4_settings.ulIPAddress = dest) ∧
    (∀ e, e ∈ eps → ifaceMatch q e = true → e.bIPv6 = false →
      e.ipv4_settings.ulIPAddress = dest →
      (∀ f, f ∈ eps → ifaceMatch q f = true → f.bIPv6 = false →
        f.ipv4_settings.ulIPAddress = dest → f = e) →
      FreeRTOS_MatchingEndpoint q eps (.ipv4 src dest) = some e) := by
  rw [matchingEndpoint_unicast q eps src dest hnb hnm]
  obtain ⟨e0, he0, hf0, h60, hip0⟩ := hex
  have hne : eps.find? (fun e => ifaceMatch q e && !e.bIPv6 &&
      (e.ipv4_settings.ulIPAddress == dest)) ≠ none := by
    intro hnone
    rw [List.find?_eq_none] at hnone
    have := hnone e0 he0
    simp [hf0, h60, hip0] at this
  obtain ⟨r, hr⟩ := Option.ne_none_iff_exists'.mp hne
  have hpr := List.find?_some hr
  have hmr := List.mem_of_find?_eq_some hr
  simp only [Bool.and_eq_true, Bool.not_eq_true', beq_iff_eq] at hpr
  refine ⟨⟨r, hr, hmr, hpr.1.1, hpr.1.2, hpr.2⟩, ?_⟩
  intro e _he _hf _h6 _hip huniq
  rw [hr, huniq r hmr hpr.1.1 hpr.1.2 hpr.2]

/-- A concrete IPv4 end-point used by the example configurations. -/
def mkIPv4EndPoint (eid iface ip mask gw : Nat) : NetworkEndPoint :=
  { eid := eid
    bIPv6 := false
    ipv4_settings :=
      { ulIPAddress := ip
        ulNetMask := mask
        ulGatewayAddress := gw
        ulDNSServerAddress := 0
        ulBroadcastAddress := ip ||| (mask32 ^^^ mask) }
    ipv4_defaults :=
      { ulIPAddress := ip
        ulNetMask := mask
        ulGatewayAddress := gw
        ulDNSServerAddress := 0
        ulBroadcastAddress := ip ||| (mask32 ^^^ mask) }
    ipv6_settings := { xIPAddress := 0, uxPrefixLength := 0 }
    xMACAddress := [0, 0, 0, 0, 0, eid]
    pxNetworkInterface := iface }

/-- 10.0.0.5/24 on interface 0, gateway 10.0.0.1. -/
def epA : NetworkEndPoint := mkIPv4EndPoint 1 0 0x0A000005 0xFFFFFF00 0x0A000001

/-- 192.168.1.5/24 on interface 0, no gateway. -/
def epB : NetworkEndPoint := mkIPv4EndPoint 2 0 0xC0A80105 0xFFFFFF00 0

/-- C8 witness: on the registry `[epA, epB]` (10.0.0.5/24 then
192.168.1.5/24, both on interface 0), the frame with destination
192.168.1.5 is delivered to `epB` even though `epA` precedes it. -/
theorem C8_unicast_exact_match_witness :
    (0xC0A80105 &&& 0xff ≠ 0xff) ∧ xIsIPv4Multicast 0xC0A80105 = false ∧
    FreeRTOS_MatchingEndpoint (some 0) [epA, epB]
      (.ipv4 0x0A000009 0xC0A80105) = some epB := by
  refine ⟨by decide, by decide, ?_⟩
  exact (C8_unicast_exact_match (some 0) [epA, epB] 0x0A000009 0xC0A80105
    (by decide) (by decide)
    ⟨epB, by decide, by decide, by decide, by decide⟩).2 epB
    (by decide) (by decide) (by decide) (by decide) (by decide)

lemma firstEndPoint_eq_find? (q : Option Nat) (eps : List NetworkEndPoint) :
    FreeRTOS_FirstEndPoint q eps = eps.find? (fun e => ifaceMatch q e) := by
  induction eps with
  | nil => rfl
  | cons e rest ih =>
    by_cases hf : ifaceMatch q e = true <;>
      simp [FreeRTOS_FirstEndPoint, List.find?_cons, hf, ih]

lemma prvMatchLoopIPv4_eq_find? (q : Option Nat) (dest mAddr : Nat)
    (b : Bool) (eps : List NetworkEndPoint) :
    prvMatchLoopIPv4 q dest mAddr b eps =
      eps.find? (fun e => ifaceMatch q e && !e.bIPv6 &&
        (e.ipv4_settings.ulIPAddress == dest ||
          (b && ((e.ipv4_settings.ulIPAddress ^^^ mAddr) &&&
            e.ipv4_settings.ulNetMask == 0)) ||
          xIsIPv4Multicast dest)) := by
  induction eps with
  | nil => rfl
  | cons e rest ih =>
    by_cases hf : ifaceMatch q e = true
    · by_cases h6 : e.bIPv6 = true
      · simp [prvMatchLoopIPv4, List.find?_cons, hf, h6, ih]
      · by_cases hip : e.ipv4_settings.ulIPAddress = dest
        · simp [prvMatchLoopIPv4, List.find?_cons, hf, h6, hip]
        · by_cases hbc : b = true ∧ (e.ipv4_settings.ulIPAddress ^^^ mAddr) &&&
              e.ipv4_settings.ulNetMask = 0
          · simp [prvMatchLoopIPv4, List.find?_cons, hf, h6, hip, hbc.1, hbc.2]
          · by_cases hmc : xIsIPv4Multicast dest = true
            · simp [prvMatchLoopIPv4, List.find?_cons, hf, h6, hip, hbc, hmc]
            · simp [prvMatchLoopIPv4, List.find?_cons, hf, h6, hip, hbc, hmc, ih]
    · simp [prvMatchLoopIPv4, List.find?_cons, hf, ih]

lemma matchingEndpoint_ipv4_broadcast (q : Option Nat)
    (eps : List NetworkEndPoint) (src dest : Nat)
    (hb : (dest &&& 0xff == 0xff) = true) :
    FreeRTOS_MatchingEndpoint q eps (.ipv4 src dest) =
      match prvMatchLoopIPv4 q dest (if dest = mask32 then src else dest)
          true eps with
      | some e => some e
      | none => FreeRTOS_FirstEndPoint q eps := by
  simp [FreeRTOS_MatchingEndpoint, hb]

/-- C3 counterexample: interface 0 carries `epA` = 10.0.0.5/24 then
`epB` = 192.168.1.5/24.  A limited-broadcast frame (destination
255.255.255.255) whose source is 192.168.1.7 is matched to `epB` by the
subnet-broadcast rule, not to the first-registered end-point `epA`, so
"returns the first-registered endpoint ... for any source address" fails. -/
theorem C3_counterexample :
    ((0xFFFFFFFF : Nat) &&& 0xff = 0xff) ∧
    FreeRTOS_MatchingEndpoint (some 0) [epA, epB]
      (.ipv4 0xC0A80107 0xFFFFFFFF) = some epB ∧
    FreeRTOS_FirstEndPoint (some 0) [epA, epB] = some epA ∧
    epB ≠ epA := by
  refine ⟨by decide, by decide, by decide, by decide⟩

/-- C3 (amended): on an IPv4 frame whose destination has an all-ones
low-order byte, the matcher returns "no match" iff the receiving interface
has no end-point at all; with at least one end-point it returns some
end-point bound to that interface (the first-registered one whenever no
end-point passes the per-end-point rules, but possibly a later end-point
otherwise). -/
theorem C3_broadcast_never_dropped (q : Option Nat)
    (eps : List NetworkEndPoint) (src dest : Nat)
    (hb : dest &&& 0xff = 0xff) :
    (FreeRTOS_MatchingEndpoint q eps (.ipv4 src dest) = none ↔
      FreeRTOS_FirstEndPoint q eps = none) ∧
    (∀ r, FreeRTOS_MatchingEndpoint q eps (.ipv4 src dest) = some r →
      r ∈ eps ∧ ifaceMatch q r = true) ∧
    (prvMatchLoopIPv4 q dest (if dest = mask32 then src else dest)
        true eps = none →
      FreeRTOS_MatchingEndpoint q eps (.ipv4 src dest) =
        FreeRTOS_FirstEndPoint q eps) := by
  have hbb : (dest &&& 0xff == 0xff) = true := by simpa using hb
  have hred := matchingEndpoint_ipv4_broadcast q eps src dest hbb
  have hfirst := firstEndPoint_eq_find? q eps
  cases hloop : prvMatchLoopIPv4 q dest (if dest = mask32 then src else dest)
      true eps with
  | none =>
    have hm : FreeRTOS_MatchingEndpoint q eps (.ipv4 src dest) =
        FreeRTOS_FirstEndPoint q eps := by
      rw [hred, hloop]
    refine ⟨by rw [hm], ?_, fun _ => hm⟩
    intro r hr
    rw [hm, hfirst] at hr
    exact ⟨List.mem_of_find?_eq_some hr, List.find?_some hr⟩
  | some e =>
    have hm : FreeRTOS_MatchingEndpoint q eps (.ipv4 src dest) = some e := by
      rw [hred, hloop]
    rw [prvMatchLoopIPv4_eq_find?] at hloop
    have hmem := List.mem_of_find?_eq_some hloop
    have hp := List.find?_some hloop
    simp only [Bool.and_eq_true] at hp
    refine ⟨?_, ?_, ?_⟩
    · rw [hm]
      constructor
      · intro h
        exact absurd h (by simp)
      · intro h
        rw [hfirst, List.find?_eq_none] at h
        exact absurd hp.1.1 (by simpa using h e hmem)
    · intro r hr
      rw [hm] at hr
      cases hr
      exact ⟨hmem, hp.1.1⟩
    · intro hcontra
      exact absurd hcontra (by simp)
/-- C3 witness: on a registry whose only end-point on interface 0 is
`epA`, a limited-broadcast frame from an unrelated source is matched, and
removing all end-points gives "no match". -/
theorem C3_broadcast_never_dropped_witness :
    ((0xFFFFFFFF : Nat) &&& 0xff = 0xff) ∧
    (FreeRTOS_MatchingEndpoint (some 0) [epA]
        (.ipv4 0x08080808 0xFFFFFFFF) = none ↔
      FreeRTOS_FirstEndPoint (some 0) [epA] = none) := by
  exact ⟨by decide,
    (C3_broadcast_never_dropped (some 0) [epA] 0x08080808 0xFFFFFFFF
      (by decide)).1⟩

/-- C4 counterexample: interface 0 carries `epB` = 192.168.1.5/24 then
`epA` = 10.0.0.5/24.  The frame has destination 10.0.0.255 (low-order
byte all-ones but not 255.255.255.255) and source 192.168.1.7.  Under the
claim, rule (b) uses the source, so `epB` (whose subnet contains the
source) would be the first match; the code instead compares against the
destination and returns `epA`, which satisfies neither the claimed
source-based rule (b) nor rules (a)/(c), and is not the first end-point
either. -/
theorem C4_counterexample :
    ((0x0A0000FF : Nat) &&& 0xff = 0xff) ∧ (0x0A0000FF : Nat) ≠ mask32 ∧
    FreeRTOS_MatchingEndpoint (some 0) [epB, epA]
      (.ipv4 0xC0A80107 0x0A0000FF) = some epA ∧
    (epA.ipv4_settings.ulIPAddress ^^^ 0xC0A80107) &&&
      epA.ipv4_settings.ulNetMask ≠ 0 ∧
    epA.ipv4_settings.ulIPAddress ≠ 0x0A0000FF ∧
    xIsIPv4Multicast 0x0A0000FF = false ∧
    (epB.ipv4_settings.ulIPAddress ^^^ 0xC0A80107) &&&
      epB.ipv4_settings.ulNetMask = 0 ∧
    FreeRTOS_FirstEndPoint (some 0) [epB, epA] = some epB := by
  refine ⟨by decide, by decide, by decide, by decide, by decide, by decide,
    by decide, by decide⟩

/-- C4 (amended): the broadcast rule substitutes the frame's source
address only when the destination is exactly 255.255.255.255.  For any
destination whose low-order byte is all-ones but which is not
255.255.255.255 the source address plays no role at all (the match result
is source-independent, the destination itself is compared).  For the
destination 255.255.255.255 the source is used: an IPv4 end-point of the
receiving interface whose subnet contains the source guarantees a match,
and every returned IPv4 end-point is explained by an exact match, by the
source-based subnet rule, or by the fall-back to the first end-point. -/
theorem C4_limited_broadcast_uses_source (q : Option Nat)
    (eps : List NetworkEndPoint) (src src1 src2 dest : Nat) :
    (dest &&& 0xff = 0xff → dest ≠ mask32 →
      FreeRTOS_MatchingEndpoint q eps (.ipv4 src1 dest) =
        FreeRTOS_MatchingEndpoint q eps (.ipv4 src2 dest)) ∧
    (∀ e, e ∈ eps → ifaceMatch q e = true → e.bIPv6 = false →
      (e.ipv4_settings.ulIPAddress ^^^ src) &&&
        e.ipv4_settings.ulNetMask = 0 →
      FreeRTOS_MatchingEndpoint q eps (.ipv4 src mask32) ≠ none) ∧
    (∀ r, FreeRTOS_MatchingEndpoint q eps (.ipv4 src mask32) = some r →
      r ∈ eps ∧ ifaceMatch q r = true ∧
      (r.bIPv6 = false →
        r.ipv4_settings.ulIPAddress = mask32 ∨
        (r.ipv4_settings.ulIPAddress ^^^ src) &&&
          r.ipv4_settings.ulNetMask = 0 ∨
        FreeRTOS_FirstEndPoint q eps = some r)) := by
  have hmc : xIsIPv4Multicast mask32 = false := by decide
  have hall : FreeRTOS_MatchingEndpoint q eps (.ipv4 src mask32) =
      match prvMatchLoopIPv4 q mask32 src true eps with
      | some e => some e
      | none => FreeRTOS_FirstEndPoint q eps := by
    have h := matchingEndpoint_ipv4_broadcast q eps src mask32 (by decide)
    simpa using h
  refine ⟨?_, ?_, ?_⟩
  · intro h1 h2
    simp [FreeRTOS_MatchingEndpoint, h2]
  · intro e he hf h6 hsub hnone
    rw [hall] at hnone
    cases hloop : prvMatchLoopIPv4 q mask32 src true eps with
    | some x => rw [hloop] at hnone; cases hnone
    | none =>
      rw [prvMatchLoopIPv4_eq_find?, List.find?_eq_none] at hloop
      have hthis := hloop e he
      simp [hf, h6, hmc, hsub] at hthis
  · intro r hr
    rw [hall] at hr
    cases hloop : prvMatchLoopIPv4 q mask32 src true eps with
    | some x =>
      rw [hloop] at hr
      cases hr
      rw [prvMatchLoopIPv4_eq_find?] at hloop
      have hmem := List.mem_of_find?_eq_some hloop
      have hp := List.find?_some hloop
      simp only [Bool.and_eq_true, Bool.or_eq_true, Bool.true_and, hmc,
        Bool.false_eq_true, or_false, beq_iff_eq, Bool.not_eq_true'] at hp
      refine ⟨hmem, hp.1.1, fun _ => ?_⟩
      rcases hp.2 with h | h
      · exact Or.inl h
      · exact Or.inr (Or.inl h)
    | none =>
      rw [hloop] at hr
      rw [firstEndPoint_eq_find?] at hr
      exact ⟨List.mem_of_find?_eq_some hr, List.find?_some hr,
        fun _ => Or.inr (Or.inr (by rw [firstEndPoint_eq_find?]; exact hr))⟩

/-- Interface record 0 with no cached end-point. -/
def ifA : NetworkInterface := { iid := 0, pxEndPoint := none }

/-- Interface record 1 with no cached end-point. -/
def ifB : NetworkInterface := { iid := 1, pxEndPoint := none }

/-- C2 counterexample: registering `ifA`, then `ifB`, then `ifA` again
leaves the chain `[ifA]`: the re-registration of `ifA` set its `pxNext`
to `NULL` before the already-present check and thereby dropped `ifB`, so
the list length shrinks from 2 to 1 and `ifB` loses membership.
Re-registering an interface whose `pxEndPoint` cache is set also clears
that cache, so the record is not unchanged either. -/
theorem C2_counterexample :
    FreeRTOS_AddNetworkInterface
      (FreeRTOS_AddNetworkInterface
        (FreeRTOS_AddNetworkInterface [] ifA) ifB) ifA = [ifA] ∧
    (FreeRTOS_AddNetworkInterface
      (FreeRTOS_AddNetworkInterface [] ifA) ifB).length = 2 ∧
    ifB ∉ FreeRTOS_AddNetworkInterface
      (FreeRTOS_AddNetworkInterface
        (FreeRTOS_AddNetworkInterface [] ifA) ifB) ifA ∧
    FreeRTOS_AddNetworkInterface [{ iid := 0, pxEndPoint := some 7 }]
      { iid := 0, pxEndPoint := some 7 } = [ifA] := by
  refine ⟨by decide, by decide, by decide, by decide⟩

lemma addNetworkInterface_fresh (chain : List NetworkInterface)
    (i : NetworkInterface) (h : i.iid ∉ chain.map (fun j => j.iid)) :
    FreeRTOS_AddNetworkInterface chain i =
      chain ++ [{ i with pxEndPoint := none }] := by
  have hnone : chain.findIdx? (fun j => j.iid == i.iid) = none := by
    rw [List.findIdx?_eq_none_iff]
    intro j hj
    simp only [beq_eq_false_iff_ne, ne_eq]
    intro hEq
    exact h (hEq ▸ List.mem_map_of_mem (fun j => j.iid) hj)
  rw [FreeRTOS_AddNetworkInterface, hnone]

lemma foldl_addNetworkInterface_fresh (iss chain : List NetworkInterface)
    (hdisj : ∀ i ∈ iss, i.iid ∉ chain.map (fun j => j.iid))
    (hnodup : (iss.map (fun j => j.iid)).Nodup) :
    (iss.foldl FreeRTOS_AddNetworkInterface chain).map (fun j => j.iid) =
      chain.map (fun j => j.iid) ++ iss.map (fun j => j.iid) := by
  induction iss generalizing chain with
  | nil => simp
  | cons i rest ih =>
    have hfresh := addNetworkInterface_fresh chain i
      (hdisj i (List.mem_cons_self i rest))
    simp only [List.foldl_cons, List.map_cons]
    rw [hfresh]
    simp only [List.map_cons, List.map_nil] at hnodup
    have hrest := ih (chain ++ [{ i with pxEndPoint := none }])
      (by
        intro j hj
        simp only [List.map_append, List.map_cons, List.map_nil,
          List.mem_append, List.mem_singleton]
        rintro (hc | hc)
        · exact hdisj j (List.mem_cons_of_mem i hj) hc
        · exact (List.nodup_cons.mp hnodup).1
            (hc ▸ List.mem_map_of_mem (fun j => j.iid) hj))
      (List.nodup_cons.mp hnodup).2
    rw [hrest]
    simp

/-- C2 (amended): registering interfaces with fresh identities appends in
call order, so for any sequence of distinct interfaces the list order
equals call order.  Re-registering an interface already present at
position `k`, however, is *not* a no-op: the chain is truncated to its
first `k + 1` nodes (everything after the re-registered interface is
dropped) and the interface's cached first end-point is cleared, although
no duplicate is inserted. -/
theorem C2_register_interface_order (chain iss : List NetworkInterface)
    (i : NetworkInterface) :
    (i.iid ∉ chain.map (fun j => j.iid) →
      FreeRTOS_AddNetworkInterface chain i =
        chain ++ [{ i with pxEndPoint := none }]) ∧
    ((iss.map (fun j => j.iid)).Nodup →
      (iss.foldl FreeRTOS_AddNetworkInterface []).map (fun j => j.iid) =
        iss.map (fun j => j.iid)) ∧
    (∀ k, chain.findIdx? (fun j => j.iid == i.iid) = some k →
      (FreeRTOS_AddNetworkInterface chain i).map (fun j => j.iid) =
        (chain.take (k + 1)).map (fun j => j.iid) ∧
      (FreeRTOS_AddNetworkInterface chain i).length = k + 1) := by
  refine ⟨addNetworkInterface_fresh chain i, ?_, ?_⟩
  · intro hnodup
    have h := foldl_addNetworkInterface_fresh iss [] (by simp) hnodup
    simpa using h
  · intro k hk
    have hklt : k < chain.length := by
      rw [List.findIdx?_eq_some_iff_getElem] at hk
      exact hk.1
    have hres : FreeRTOS_AddNetworkInterface chain i =
        (chain.take (k + 1)).map
          (fun j => if j.iid = i.iid then { j with pxEndPoint := none }
            else j) := by
      rw [FreeRTOS_AddNetworkInterface, hk]
    constructor
    · rw [hres, List.map_map]
      congr 1
      funext j
      by_cases hc : j.iid = i.iid <;> simp [hc]
    · rw [hres, List.length_map, List.length_take]
      omega

/-- C2 witness: a fresh registration of `ifB` onto `[ifA]` appends it. -/
theorem C2_register_interface_order_witness :
    ((1 : Nat) ∉ [ifA].map (fun j => j.iid)) ∧
    FreeRTOS_AddNetworkInterface [ifA] ifB = [ifA, ifB] := by
  refine ⟨by decide, ?_⟩
  have h := (C2_register_interface_order [ifA] [] ifB).1 (by decide)
  simpa using h

/-!
The compatibility shim (`ipconfigCOMPATIBLE_WITH_SINGLE == 1`,
lines 958-1214).  Its registries hold at most one interface and one
end-point, so the shim operations are modelled as functions of the head
pointer `pxNetworkEndPoints : Option NetworkEndPoint`.  The operations
that dereference the head pointer are embedded in `Except Unit`, with
`Except.error ()` marking a dereference of `NULL`.
-/

namespace Single

/-- Shim `FreeRTOS_FindEndPointOnIP_IPv4` (lines 1023-1037).  The C `||`
short-circuits: with `ulIPAddress == 0` the head pointer is *not*
dereferenced and the (possibly `NULL`) head is returned. -/
def FreeRTOS_FindEndPointOnIP_IPv4 (head : Option NetworkEndPoint)
    (ulIPAddress : Nat) : Except Unit (Option NetworkEndPoint) :=
  if ulIPAddress = 0 then Except.ok head
  else
    match head with
    | none => Except.error ()
    | some e =>
      Except.ok (if e.ipv4_settings.ulIPAddress = ulIPAddress then some e
        else none)

/-- Shim `FreeRTOS_FindEndPointOnMAC` (lines 1048-1062): unconditional
`memcmp` against the head end-point's MAC bytes. -/
def FreeRTOS_FindEndPointOnMAC (head : Option NetworkEndPoint)
    (pxMACAddress : List Nat) (_q : Option Nat) :
    Except Unit (Option NetworkEndPoint) :=
  match head with
  | none => Except.error ()
  | some e =>
    Except.ok (if e.xMACAddress = pxMACAddress then some e else none)

/-- Shim `FreeRTOS_InterfaceEndPointOnNetMask` (lines 1143-1158):
unconditional netmask comparison against the head end-point. -/
def FreeRTOS_InterfaceEndPointOnNetMask (_q : Option Nat)
    (head : Option NetworkEndPoint) (ulIPAddress : Nat) :
    Except Unit (Option NetworkEndPoint) :=
  match head with
  | none => Except.error ()
  | some e =>
    Except.ok
      (if (ulIPAddress ^^^ e.ipv4_settings.ulIPAddress) &&&
          e.ipv4_settings.ulNetMask = 0 then some e else none)

/-- Shim `FreeRTOS_FindEndPointOnNetMask` (lines 1072-1076): delegates. -/
def FreeRTOS_FindEndPointOnNetMask (head : Option NetworkEndPoint)
    (ulIPAddress : Nat) : Except Unit (Option NetworkEndPoint) :=
  FreeRTOS_InterfaceEndPointOnNetMask none head ulIPAddress

/-- Shim `FreeRTOS_FindGateWay` (lines 1086-1101): checks the head pointer
for `NULL` before dereferencing, discards `xIPType`. -/
def FreeRTOS_FindGateWay (_xIPType : Nat) (head : Option NetworkEndPoint) :
    Option NetworkEndPoint :=
  match head with
  | none => none
  | some e =>
    if e.ipv4_settings.ulGatewayAddress ≠ 0 then some e else none

/-- Shim `FreeRTOS_FirstEndPoint` (lines 1112-1119): the head pointer,
the interface argument is discarded. -/
def FreeRTOS_FirstEndPoint (_q : Option Nat)
    (head : Option NetworkEndPoint) : Option NetworkEndPoint :=
  head

/-- Shim `FreeRTOS_MatchingEndpoint` (lines 1169-1178): both arguments are
discarded and the head pointer is returned. -/
def FreeRTOS_MatchingEndpoint (_q : Option Nat)
    (head : Option NetworkEndPoint) (_frame : EthFrame) :
    Option NetworkEndPoint :=
  head

/-- Shim `FreeRTOS_NextEndPoint` (lines 1191-1198): always `NULL`. -/
def FreeRTOS_NextEndPoint (_q : Option Nat) (_cursor : Option Nat) :
    Option NetworkEndPoint :=
  none

/-- Shim `FreeRTOS_NextNetworkInterface` (lines 1206-1211): always
`NULL`. -/
def FreeRTOS_NextNetworkInterface (_cursor : Option Nat) :
    Option NetworkInterface :=
  none

end Single

/-- C10 counterexample: on the empty registry, the shim
`FreeRTOS_FindEndPointOnIP_IPv4` queried with the wildcard address 0 does
*not* dereference the head pointer (the C `||` short-circuits) and safely
returns "no match", refuting "dereference the head of the global endpoint
list unconditionally; they are safe only under the precondition that at
least one endpoint has been registered" for that operation. -/
theorem C10_counterexample :
    Single.FreeRTOS_FindEndPointOnIP_IPv4 none 0 = Except.ok none := by
  rfl

/-- C10 (amended): on the empty registry the shim `FreeRTOS_FindEndPointOnMAC`
and `FreeRTOS_InterfaceEndPointOnNetMask` reach the null-dereference
branch for every input, and `FreeRTOS_FindEndPointOnIP_IPv4` reaches it
exactly when the queried address is non-zero (the wildcard 0 short-circuits
past the dereference); with at least one registered end-point none of the
three can reach it; `FreeRTOS_FindGateWay` returns "no match" safely on
the empty registry. -/
theorem C10_shim_null_safety (mac : List Nat) (q : Option Nat)
    (addr t : Nat) (e : NetworkEndPoint) :
    Single.FreeRTOS_FindEndPointOnMAC none mac q = Except.error () ∧
    Single.FreeRTOS_InterfaceEndPointOnNetMask q none addr =
      Except.error () ∧
    (Single.FreeRTOS_FindEndPointOnIP_IPv4 none addr = Except.error () ↔
      addr ≠ 0) ∧
    Single.FreeRTOS_FindEndPointOnIP_IPv4 (some e) addr ≠
      Except.error () ∧
    Single.FreeRTOS_FindEndPointOnMAC (some e) mac q ≠ Except.error () ∧
    Single.FreeRTOS_InterfaceEndPointOnNetMask q (some e) addr ≠
      Except.error () ∧
    Single.FreeRTOS_FindGateWay t none = none := by
  refine ⟨rfl, rfl, ?_, ?_, by simp [Single.FreeRTOS_FindEndPointOnMAC],
    by simp [Single.FreeRTOS_InterfaceEndPointOnNetMask], rfl⟩
  · constructor
    · intro h hz
      rw [Single.FreeRTOS_FindEndPointOnIP_IPv4, if_pos hz] at h
      cases h
    · intro hz
      rw [Single.FreeRTOS_FindEndPointOnIP_IPv4, if_neg hz]
  · intro h
    rw [Single.FreeRTOS_FindEndPointOnIP_IPv4] at h
    by_cases hz : addr = 0
    · rw [if_pos hz] at h
      cases h
    · rw [if_neg hz] at h
      by_cases hm : e.ipv4_settings.ulIPAddress = addr <;>
        simp [hm] at h

/-- C1 counterexample: the single configuration with `epB` = 192.168.1.5/24
on interface 0.  On an IPv4 frame to 8.8.8.8 (unicast, no end-point owns
it) the general matcher returns "no match" while the shim returns the
single end-point without inspecting the frame — the compatibility shim is
not equivalent to the general matcher for `FreeRTOS_MatchingEndpoint`. -/
theorem C1_counterexample :
    Single.FreeRTOS_MatchingEndpoint (some 0) (some epB)
      (.ipv4 0x08080801 0x08080808) = some epB ∧
    FreeRTOS_MatchingEndpoint (some 0) [epB]
      (.ipv4 0x08080801 0x08080808) = none := by
  refine ⟨rfl, by decide⟩

lemma subnetTest_eq (a b m : Nat) :
    ((a ^^^ b) &&& m = 0) ↔ (a &&& m = b &&& m) := by
  rw [Nat.and_xor_distrib_right, Nat.xor_eq_zero]

lemma prvMatchLoopIPv4_mem (q : Option Nat) (d m : Nat) (b : Bool)
    (eps : List NetworkEndPoint) (r : NetworkEndPoint)
    (h : prvMatchLoopIPv4 q d m b eps = some r) : r ∈ eps := by
  rw [prvMatchLoopIPv4_eq_find?] at h
  exact List.mem_of_find?_eq_some h

lemma firstEndPoint_mem (q : Option Nat) (eps : List NetworkEndPoint)
    (r : NetworkEndPoint) (h : FreeRTOS_FirstEndPoint q eps = some r) :
    r ∈ eps := by
  rw [firstEndPoint_eq_find?] at h
  exact List.mem_of_find?_eq_some h

lemma findEndPointOnIP_mem (eps : List NetworkEndPoint) (a : Nat)
    (r : NetworkEndPoint) (h : FreeRTOS_FindEndPointOnIP_IPv4 eps a = some r) :
    r ∈ eps := by
  induction eps with
  | nil => cases h
  | cons e rest ih =>
    rw [FreeRTOS_FindEndPointOnIP_IPv4] at h
    split at h
    · cases h
      exact List.mem_cons_self _ _
    · exact List.mem_cons_of_mem e (ih h)

lemma prvMatchIPv6Frame_mem (q : Option Nat) (d : Nat)
    (eps : List NetworkEndPoint) (r : NetworkEndPoint)
    (h : prvMatchIPv6Frame q d eps = some r) : r ∈ eps := by
  induction eps with
  | nil => cases h
  | cons e rest ih =>
    rw [prvMatchIPv6Frame] at h
    split at h
    · cases h
      exact List.mem_cons_self _ _
    · exact List.mem_cons_of_mem e (ih h)

lemma matchingEndpoint_ipv4_nonbroadcast (q : Option Nat)
    (eps : List NetworkEndPoint) (src dest : Nat)
    (hb : (dest &&& 0xff == 0xff) = false) :
    FreeRTOS_MatchingEndpoint q eps (.ipv4 src dest) =
      prvMatchLoopIPv4 q dest (if dest = mask32 then src else dest)
        false eps := by
  rw [FreeRTOS_MatchingEndpoint]
  simp only [hb]
  cases hfind : prvMatchLoopIPv4 q dest
      (if dest = mask32 then src else dest) false eps <;> simp [hfind]

lemma matchingEndpoint_singleton (q : Option Nat) (E r : NetworkEndPoint)
    (f : EthFrame) (h : FreeRTOS_MatchingEndpoint q [E] f = some r) :
    r = E := by
  cases f with
  | arp a =>
    exact List.eq_of_mem_singleton (findEndPointOnIP_mem [E] a r h)
  | ipv4 src dest =>
    by_cases hb : (dest &&& 0xff == 0xff) = true
    · rw [matchingEndpoint_ipv4_broadcast q [E] src dest hb] at h
      cases hl : prvMatchLoopIPv4 q dest
          (if dest = mask32 then src else dest) true [E] with
      | some e =>
        rw [hl] at h
        cases h
        exact List.eq_of_mem_singleton (prvMatchLoopIPv4_mem _ _ _ _ _ _ hl)
      | none =>
        rw [hl] at h
        exact List.eq_of_mem_singleton (firstEndPoint_mem _ _ _ h)
    · rw [matchingEndpoint_ipv4_nonbroadcast q [E] src dest
        (Bool.not_eq_true _ ▸ hb)] at h
      exact List.eq_of_mem_singleton (prvMatchLoopIPv4_mem _ _ _ _ _ _ h)
  | ipv6 d =>
    exact List.eq_of_mem_singleton (prvMatchIPv6Frame_mem q d [E] r h)
  | other ft => cases h

/-- C1 (amended): for a configuration of exactly one interface `I` and one
(IPv4) end-point `E` bound to it, and for every query naming either the
registered interface or no interface, the compatibility shim agrees with
the general build for `FindEndPointOnIP_IPv4`, `FindEndPointOnMAC`,
`InterfaceEndPointOnNetMask`, `FindEndPointOnNetMask`, `FindGateWay`
(the `ipconfigUSE_IPv6 == 0` compilation, the only one that coexists with
the shim), `FirstEndPoint`, `NextEndPoint` and `NextNetworkInterface` —
but NOT for `MatchingEndpoint`: there the shim returns the single
end-point for *every* frame, agreeing with the general matcher exactly on
those frames for which the general matcher finds a match. -/
theorem C1_shim_equivalence (I : Nat) (E : NetworkEndPoint)
    (q cursor : Option Nat) (addr t : Nat) (mac : List Nat)
    (frame : EthFrame) (h6 : E.bIPv6 = false)
    (hIf : E.pxNetworkInterface = I) (hq : q = none ∨ q = some I) :
    Single.FreeRTOS_FindEndPointOnIP_IPv4 (some E) addr =
      Except.ok (FreeRTOS_FindEndPointOnIP_IPv4 [E] addr) ∧
    Single.FreeRTOS_FindEndPointOnMAC (some E) mac q =
      Except.ok (FreeRTOS_FindEndPointOnMAC [E] mac q) ∧
    Single.FreeRTOS_InterfaceEndPointOnNetMask q (some E) addr =
      Except.ok (FreeRTOS_InterfaceEndPointOnNetMask q addr [E]) ∧
    Single.FreeRTOS_FindEndPointOnNetMask (some E) addr =
      Except.ok (FreeRTOS_FindEndPointOnNetMask addr [E]) ∧
    Single.FreeRTOS_FindGateWay t (some E) =
      FreeRTOS_FindGateWay_v4 t [E] ∧
    Single.FreeRTOS_FirstEndPoint q (some E) =
      FreeRTOS_FirstEndPoint q [E] ∧
    Single.FreeRTOS_NextEndPoint q cursor =
      FreeRTOS_NextEndPoint q cursor [E] ∧
    Single.FreeRTOS_NextNetworkInterface cursor =
      FreeRTOS_NextNetworkInterface cursor
        [{ iid := I, pxEndPoint := some E.eid }] ∧
    Single.FreeRTOS_MatchingEndpoint q (some E) frame = some E ∧
    (∀ r, FreeRTOS_MatchingEndpoint q [E] frame = some r →
      Single.FreeRTOS_MatchingEndpoint q (some E) frame = some r) := by
  have hfl : ifaceMatch q E = true := by
    rcases hq with hq | hq <;> subst hq <;> simp [ifaceMatch, hIf]
  refine ⟨?_, ?_, ?_, ?_, ?_, ?_, ?_, ?_, rfl, ?_⟩
  · rw [Single.FreeRTOS_FindEndPointOnIP_IPv4]
    by_cases hz : addr = 0
    · subst hz
      simp [FreeRTOS_FindEndPointOnIP_IPv4, h6]
    · rw [if_neg hz]
      by_cases hm : E.ipv4_settings.ulIPAddress = addr <;>
        simp [FreeRTOS_FindEndPointOnIP_IPv4, h6, hz, hm]
  · by_cases hm : E.xMACAddress = mac <;>
      simp [Single.FreeRTOS_FindEndPointOnMAC,
        FreeRTOS_FindEndPointOnMAC, hfl, hm]
  · by_cases hm : addr &&& E.ipv4_settings.ulNetMask =
        E.ipv4_settings.ulIPAddress &&& E.ipv4_settings.ulNetMask
    · have hx : (addr ^^^ E.ipv4_settings.ulIPAddress) &&&
          E.ipv4_settings.ulNetMask = 0 := (subnetTest_eq _ _ _).mpr hm
      simp [Single.FreeRTOS_InterfaceEndPointOnNetMask,
        FreeRTOS_InterfaceEndPointOnNetMask, hfl, h6, hm, hx]
    · have hx : ¬((addr ^^^ E.ipv4_settings.ulIPAddress) &&&
          E.ipv4_settings.ulNetMask = 0) := fun hc =>
        hm ((subnetTest_eq _ _ _).mp hc)
      simp [Single.FreeRTOS_InterfaceEndPointOnNetMask,
        FreeRTOS_InterfaceEndPointOnNetMask, hfl, h6, hm, hx]
  · by_cases hm : addr &&& E.ipv4_settings.ulNetMask =
        E.ipv4_settings.ulIPAddress &&& E.ipv4_settings.ulNetMask
    · have hx : (addr ^^^ E.ipv4_settings.ulIPAddress) &&&
          E.ipv4_settings.ulNetMask = 0 := (subnetTest_eq _ _ _).mpr hm
      simp [Single.FreeRTOS_FindEndPointOnNetMask,
        Single.FreeRTOS_InterfaceEndPointOnNetMask,
        FreeRTOS_FindEndPointOnNetMask,
        FreeRTOS_InterfaceEndPointOnNetMask, ifaceMatch, h6, hm, hx]
    · have hx : ¬((addr ^^^ E.ipv4_settings.ulIPAddress) &&&
          E.ipv4_settings.ulNetMask = 0) := fun hc =>
        hm ((subnetTest_eq _ _ _).mp hc)
      simp [Single.FreeRTOS_FindEndPointOnNetMask,
        Single.FreeRTOS_InterfaceEndPointOnNetMask,
        FreeRTOS_FindEndPointOnNetMask,
        FreeRTOS_InterfaceEndPointOnNetMask, ifaceMatch, h6, hm, hx]
  · by_cases hg : E.ipv4_settings.ulGatewayAddress = 0 <;>
      simp [Single.FreeRTOS_FindGateWay, FreeRTOS_FindGateWay_v4, hg]
  · simp [Single.FreeRTOS_FirstEndPoint, FreeRTOS_FirstEndPoint, hfl]
  · cases cursor with
    | none => rfl
    | some cid =>
      rw [Single.FreeRTOS_NextEndPoint, FreeRTOS_NextEndPoint]
      by_cases hc : E.eid = cid
      · have hb : (E.eid != cid) = false := by simp [hc]
        simp [List.dropWhile, hb, FreeRTOS_FirstEndPoint]
      · have hb : (E.eid != cid) = true := by simp [hc]
        simp [List.dropWhile, hb]
  · cases cursor with
    | none => rfl
    | some cid =>
      rw [Single.FreeRTOS_NextNetworkInterface, FreeRTOS_NextNetworkInterface]
      by_cases hc : I = cid
      · have hb : (({ iid := I, pxEndPoint := some E.eid } :
            NetworkInterface).iid != cid) = false := by simp [hc]
        simp [List.dropWhile, hb]
      · have hb : (({ iid := I, pxEndPoint := some E.eid } :
            NetworkInterface).iid != cid) = true := by simp [hc]
        simp [List.dropWhile, hb]
  · intro r hr
    rw [matchingEndpoint_singleton q E r frame hr]
    rfl

/-- C1 witness: the amended equivalence instantiated on the configuration
with `epA` = 10.0.0.5/24 on interface 0 and the netmask lookup for
10.0.0.77: shim and general build agree. -/
theorem C1_shim_equivalence_witness :
    (epA.bIPv6 = false ∧ epA.pxNetworkInterface = 0 ∧
      ((some 0 : Option Nat) = none ∨ (some 0 : Option Nat) = some 0)) ∧
    Single.FreeRTOS_InterfaceEndPointOnNetMask (some 0) (some epA)
      0x0A00004D =
      Except.ok (FreeRTOS_InterfaceEndPointOnNetMask (some 0)
        0x0A00004D [epA]) := by
  refine ⟨⟨by decide, by decide, Or.inr rfl⟩, ?_⟩
  exact (C1_shim_equivalence 0 epA (some 0) none 0x0A00004D 0 []
    (.other 0) (by decide) (by decide) (Or.inr rfl)).2.2.1
